import Mathlib

/-!
Verification development for the real-time conversation orchestration
pipeline of the cosplay repository (FastAPI + WebSocket voice chat with
LLM-generated character replies).

The embedding below translates the Python sources into Lean:

* `app/websocket/handler.py` — the session loop (`handle_websocket`), the
  per-turn pipeline (`_process_user_input`), message history loading
  (`get_recent_messages`) and summary generation
  (`generate_context_summary`).
* `app/services/rag_service.py` — knowledge retrieval
  (`search_knowledge`, `build_context_prompt`).
* `app/services/context_agent.py` — `ContextAgent.generate_summary`.
* `app/services/text_correction_service.py` — `correct_text`.
* `app/services/indextts2_service.py` — emotion-marker extraction and the
  reference-voice synthesis entry point.

External effects (database queries, LLM calls, embedding calls, TTS
synthesis, object-storage uploads, the WebSocket transport) are modelled
as explicit parameters carrying the outcome of the corresponding await:
`Except Unit α` for calls that may raise, plain values for data the
collaborator returns.  Machine floats (similarity scores, emotion
intensity) never influence any control-flow verified here and are kept as
integer placeholders.
-/

/-- Python `str.strip()`: remove whitespace from both ends. -/
def pyStrip (s : String) : String :=
  ⟨((s.data.dropWhile Char.isWhitespace).reverse.dropWhile Char.isWhitespace).reverse⟩

/-- Python `s[:n]` on a `str`: the first `n` code points. -/
def pySlice (s : String) (n : Nat) : String :=
  ⟨s.data.take n⟩

/-- A persisted `Message` row (`app/models.py`), as far as the pipeline
reads it: role, content, creation time (modelled as a natural number) and
optional audio URL. -/
structure Message where
  role : String
  content : String
  created_at : Nat
  audio_url : Option String
deriving DecidableEq, Repr

/-- One retrieved knowledge chunk as produced by
`RAGService.search_knowledge` (a dict with content, metadata, document
title/description and a relevance score).  The score arithmetic
(`1 - l2_distance`) happens in float/SQL land and is irrelevant to every
claim, so the score is an integer placeholder. -/
structure RetrievedChunk where
  content : String
  doc_title : String
  doc_description : Option String
  relevance_score : Int
deriving DecidableEq, Repr

/-- The character configuration fields read by the pipeline
(`app/models.py` `Character`).  `doc_ids` stands for the ids of
`character.knowledge_documents`. -/
structure Character where
  prompt_template : String
  use_knowledge_base : Bool
  knowledge_search_k : Nat
  voice_id : String
  tts_engine : Option String
  doc_ids : List Nat
deriving DecidableEq, Repr

/-- One entry of the `history` event payload built in `handle_websocket`
(lines 195-203): role, content, ISO timestamp (kept as the numeric
creation time) and audio URL. -/
structure HistoryItem where
  role : String
  content : String
  created_at : Nat
  audio_url : Option String
deriving DecidableEq, Repr

/-- Server-to-client WebSocket events emitted through
`manager.send_message`. -/
inductive WsEvent where
  | transcription (content : String) (is_corrected : Bool)
  | textStream (content : String)
  | audio (url : String)
  | audioError (message : String)
  | history (messages : List HistoryItem)
deriving DecidableEq, Repr

/-- A row committed to the `messages` table during one turn
(`db.add(...)` then `await db.commit()` in `_process_user_input`).
`retrieved_context` and `context_prompt` are `none` on the user row, set
on the assistant row. -/
structure MessageRow where
  conversation_id : Nat
  role : String
  content : String
  audio_url : Option String
  retrieved_context : Option (List RetrievedChunk)
  context_prompt : Option String
deriving DecidableEq, Repr

/-- `TextCorrectionService.correct_text`
(`text_correction_service.py` lines 10-51).  `llm` is the outcome of the
awaited LLM call (the concatenation of yielded chunks, or an exception).
The code returns `corrected_text.strip()` when that is truthy (non-empty)
and otherwise falls back to `raw_text`; any exception also returns
`raw_text`.  The `context` argument only shapes the prompt sent to the
external LLM, which is exactly what `llm` abstracts. -/
def correct_text (raw_text : String) (_context : Option String)
    (llm : Except Unit String) : String :=
  match llm with
  | .ok corrected_text =>
      if pyStrip corrected_text ≠ "" then pyStrip corrected_text else raw_text
  | .error _ => raw_text

/-- `ContextAgent.generate_summary` (`context_agent.py` lines 8-43).
`llm` is the outcome of the awaited LLM streaming call (concatenated
chunks or an exception).  On success the stripped text is returned, on
any exception the fixed fallback string. -/
def ContextAgent.generate_summary (llm : Except Unit String) : String :=
  match llm with
  | .ok summary => pyStrip summary
  | .error _ => "对话摘要生成失败，请检查日志。"

/-- `generate_context_summary` (`handler.py` lines 77-100).  `agentCall`
is the outcome of awaiting `ContextAgent.generate_summary`: in normal
execution it is `.ok (ContextAgent.generate_summary llm)` because that
function catches its own exceptions; `.error ()` models the await itself
raising.  An empty message list short-circuits to the empty string; a
successful summary longer than 1000 characters is cut to its first 997
characters plus `"..."`; a raising call yields a fallback naming the
message count. -/
def generate_context_summary (messages : List Message)
    (agentCall : Except Unit String) : String :=
  if messages.isEmpty then ""
  else
    match agentCall with
    | .ok summary =>
        if 1000 < summary.length then pySlice summary 997 ++ "..." else summary
    | .error _ =>
        "对话历史摘要: 最近" ++ toString messages.length ++ "条消息的对话上下文"

/-- `get_recent_messages` (`handler.py` lines 64-74).  The rows of one
conversation are modelled as a list in ascending `created_at` order
(rows are append-only and each commit happens later than the previous
one, cf. spec §3 "appended-only per conversation").  The SQL
`ORDER BY created_at DESC LIMIT limit` is then `reverse` followed by
`take limit`, and the final Python `recent_messages.reverse()` restores
ascending order. -/
def get_recent_messages (conversation : List Message) (limit : Nat) :
    List Message :=
  ((conversation.reverse).take limit).reverse

/-- The payload entry built for each history message in
`handle_websocket` (lines 195-203). -/
def historyItemOf (m : Message) : HistoryItem :=
  ⟨m.role, m.content, m.created_at, m.audio_url⟩

/-- The `history` traffic emitted by `handle_websocket` between accepting
the connection and entering the receive loop (lines 184-209): fetch the
last 10 messages; if the list is non-empty send exactly one `history`
event with the mapped payload, otherwise send nothing. -/
def startupHistoryEvents (conversation : List Message) : List WsEvent :=
  let recent := get_recent_messages conversation 10
  if recent.isEmpty then []
  else [WsEvent.history (recent.map historyItemOf)]

/-- `RAGService.search_knowledge` (`rag_service.py` lines 309-359).
`embed` is the outcome of `create_embedding(query)` — that method
re-raises every failure (lines 53-69), and `search_knowledge` does not
catch it, so an `.error` propagates.  `storeRows` is the row list the
vector store returns for the successful similarity query, already in
descending relevance order; the SQL `LIMIT k` is `take k`.  When the
character has no linked documents the method returns `[]` without ever
creating an embedding. -/
def search_knowledge (c : Character) (embed : Except Unit (List Int))
    (storeRows : List RetrievedChunk) (k : Nat) :
    Except Unit (List RetrievedChunk) :=
  if c.doc_ids.isEmpty then .ok []
  else
    match embed with
    | .error e => .error e
    | .ok _ => .ok (storeRows.take k)

/-- The document info piece of `build_context_prompt`: `《title》` plus
`" - description"` when the description is truthy (not `None` and not the
empty string). -/
def chunkDocInfo (chunk : RetrievedChunk) : String :=
  "《" ++ chunk.doc_title ++ "》" ++
    (match chunk.doc_description with
     | some d => if d = "" then "" else " - " ++ d
     | none => "")

/-- One `[知识i - 来自...]` block of `build_context_prompt`, `i` counted
from 1. -/
def chunkPart (i : Nat) (chunk : RetrievedChunk) : String :=
  "[知识" ++ toString i ++ " - 来自" ++ chunkDocInfo chunk ++ "]\n" ++
    chunk.content ++ "\n"

/-- The fixed retrieval preamble: `context_parts[0]` of
`build_context_prompt` (`rag_service.py` line 372). -/
def rag_preamble : String := "以下是相关的背景知识，请参考这些信息来回答：\n"

/-- `RAGService.build_context_prompt` (`rag_service.py` lines 361-387):
empty string for an empty chunk list, otherwise the preamble, one block
per chunk (1-indexed) and a fixed closing instruction, joined with
newlines. -/
def build_context_prompt (retrieved_chunks : List RetrievedChunk) : String :=
  if retrieved_chunks.isEmpty then ""
  else
    "\n".intercalate
      ([rag_preamble] ++
        ((List.range retrieved_chunks.length).zip retrieved_chunks).map
          (fun p => chunkPart (p.1 + 1) p.2) ++
        ["\n请基于上述知识，结合角色设定来回答用户的问题。"])

/-- Prompt assembly of `_process_user_input` (lines 347-356): the
character template, then `相关知识上下文` when the RAG prompt is truthy,
then `对话历史总结` when the summary is truthy, joined with blank
lines. -/
def enhanced_prompt (template rag_context_prompt context_summary : String) :
    String :=
  "\n\n".intercalate
    ([template] ++
      (if rag_context_prompt = "" then []
       else ["相关知识上下文:\n" ++ rag_context_prompt]) ++
      (if context_summary = "" then []
       else ["对话历史总结:\n" ++ context_summary]))

/-- The retrieval section of `_process_user_input` (lines 312-331): only
when `character.use_knowledge_base` is set and the character has linked
knowledge documents is `search_knowledge` consulted; an exception raised
there propagates (there is no try/except around the call). -/
def retrieval_phase (c : Character) (embed : Except Unit (List Int))
    (storeRows : List RetrievedChunk) : Except Unit (List RetrievedChunk) :=
  if c.use_knowledge_base && !c.doc_ids.isEmpty then
    search_knowledge c embed storeRows c.knowledge_search_k
  else .ok []

/-- The generation loop of `_process_user_input` (lines 360-371): for
each fragment yielded by `LLMService.generate_response`, append it to
`ai_content` and send one `text_stream` event.  `failAt = some i` models
the transport send raising on the `i`-th fragment (client disconnected
mid-stream): `ai_content` has already been extended but the event is not
delivered and the loop aborts.  Returns the accumulated text, the events
actually sent, and whether the loop completed. -/
def stream_reply (i : Nat) (acc : String) (events : List WsEvent)
    (frags : List String) (failAt : Option Nat) :
    String × List WsEvent × Bool :=
  match frags with
  | [] => (acc, events, true)
  | f :: fs =>
      let acc2 := acc ++ f
      if failAt = some i then (acc2, events, false)
      else stream_reply (i + 1) acc2 (events ++ [WsEvent.textStream f]) fs failAt

/-- The speech-synthesis section of `_process_user_input`
(lines 373-449), collapsed over its external calls: when audio is
requested, `ttsOutcome` is the combined outcome of text cleaning,
synthesis and upload (`.ok url` when an audio URL was obtained, `.error`
when any step raised or the upload returned `None`).  Success sends an
`audio` event and persists the URL; failure is caught and produces an
`audio_error` event; in both cases the turn continues. -/
def tts_stage (need_audio : Bool) (ttsOutcome : Except Unit String)
    (engineName : String) : Option String × List WsEvent :=
  if need_audio then
    match ttsOutcome with
    | .ok url => (some url, [WsEvent.audio url])
    | .error _ => (none, [WsEvent.audioError ("语音生成失败 (" ++ engineName ++ ")")])
  else (none, [])

/-- The outcome of one call to `_process_user_input`: the rows committed
to the conversation (in commit order), the events sent to the session,
the assembled system prompt handed to the generator (empty when the turn
aborted before prompt assembly), and whether an exception escaped the
function (aborting the turn). -/
structure TurnResult where
  committed : List MessageRow
  events : List WsEvent
  prompt : String
  aborted : Bool
deriving DecidableEq, Repr

/-- `_process_user_input` (`handler.py` lines 287-464).  Step order as in
the source: fetch recent messages, summarize, retrieval (a raised
retrieval error escapes before anything is committed), commit the user
row, assemble the enhanced prompt, stream the reply (a transport error
escapes before the assistant row is committed), run the TTS stage, commit
the assistant row carrying the retrieved chunks and the summary. -/
def process_user_input (c : Character) (conversation_id : Nat)
    (user_content : String) (user_audio_url : Option String)
    (db_messages : List Message)
    (agentCall : Except Unit String)
    (embed : Except Unit (List Int))
    (storeRows : List RetrievedChunk)
    (frags : List String) (failAt : Option Nat)
    (need_audio : Bool) (ttsOutcome : Except Unit String)
    (engineName : String) : TurnResult :=
  let recent := get_recent_messages db_messages 10
  let context_summary := generate_context_summary recent agentCall
  match retrieval_phase c embed storeRows with
  | .error _ => ⟨[], [], "", true⟩
  | .ok retrieved_chunks =>
      let rag_context_prompt :=
        if retrieved_chunks.isEmpty then "" else build_context_prompt retrieved_chunks
      let user_row : MessageRow :=
        ⟨conversation_id, "user", user_content, user_audio_url, none, none⟩
      let prompt := enhanced_prompt c.prompt_template rag_context_prompt context_summary
      match stream_reply 0 "" [] frags failAt with
      | (_, evs, false) => ⟨[user_row], evs, prompt, true⟩
      | (ai_content, evs, true) =>
          let (ai_audio_url, audio_evs) := tts_stage need_audio ttsOutcome engineName
          let ai_row : MessageRow :=
            ⟨conversation_id, "assistant", ai_content, ai_audio_url,
              some retrieved_chunks, some context_summary⟩
          ⟨[user_row, ai_row], evs ++ audio_evs, prompt, false⟩

/-- The delimiter character class of the emotion-marker regex in
`IndexTTS2Service.extract_emotion_and_clean_text`
(`indextts2_service.py` line 120). -/
def isEmotionDelim (ch : Char) : Bool :=
  (['*', '#', '【', '】', '[', ']', '(', ')'] : List Char).contains ch

/-- One attempt of the regex
`[delims]([^delims]*)[delims]` to match at the start of `l`
(Python `re` semantics): the first character must be a delimiter, then a
maximal run of non-delimiters, then another delimiter.  Returns the
captured group and the input remaining after the match. -/
def emotionMatchAt (l : List Char) : Option (List Char × List Char) :=
  match l with
  | [] => none
  | d :: rest =>
      if isEmotionDelim d then
        match rest.dropWhile (fun ch => !isEmotionDelim ch) with
        | _ :: rest2 => some (rest.takeWhile (fun ch => !isEmotionDelim ch), rest2)
        | [] => none
      else none

/-- `re.search` with the emotion pattern: the captured group of the
leftmost match, scanning candidate start positions left to right. -/
def emotionSearch : List Char → Option (List Char)
  | [] => none
  | c :: rest =>
      match emotionMatchAt (c :: rest) with
      | some (grp, _) => some grp
      | none => emotionSearch rest

/-- Worker for `re.sub(pattern, '', text)` with the emotion pattern,
written as a single left-to-right scan so that it is structurally
recursive: outside a candidate match (`none`) non-delimiter characters
are kept and a delimiter opens a pending candidate; inside a candidate
(`some pending`, holding the opening delimiter and the non-delimiters
read so far) a closing delimiter completes the match and discards the
pending characters, while end of input with an unclosed candidate keeps
them (the regex finds no further match there, exactly as `re.sub`
resumes scanning after each removed match). -/
def emotionSubGo : Option (List Char) → List Char → List Char
  | none, [] => []
  | some pending, [] => pending
  | none, c :: rest =>
      if isEmotionDelim c then emotionSubGo (some [c]) rest
      else c :: emotionSubGo none rest
  | some pending, c :: rest =>
      if isEmotionDelim c then emotionSubGo none rest
      else emotionSubGo (some (pending ++ [c])) rest

/-- `re.sub(pattern, '', text)`: remove every non-overlapping match of
the emotion pattern, left to right. -/
def emotionSub (l : List Char) : List Char := emotionSubGo none l

/-- `IndexTTS2Service.extract_emotion_and_clean_text`
(`indextts2_service.py` lines 114-133): the captured group of the first
match becomes the emotion directive, and the cleaned text is the input
with all matches removed and stripped; without a match the emotion is
`None` and the text is returned as is. -/
def extract_emotion_and_clean_text (text : String) : Option String × String :=
  match emotionSearch text.data with
  | some grp => (some ⟨grp⟩, pyStrip ⟨emotionSub text.data⟩)
  | none => (none, text)

/-- The `tts_config` fields read by `synthesize_from_character`.  The
float `emo_alpha` and the `emotion_vector` never steer any verified
control flow and are integer placeholders. -/
structure TTSConfig where
  voice_audio_url : Option String
  emo_audio_url : Option String
  emo_text : Option String
  emo_alpha : Option Int
  emotion_vector : Option (List Int)
  use_random : Option Bool
deriving DecidableEq, Repr

/-- The argument bundle `synthesize_from_character` hands to
`IndexTTS2Service.synthesize` (the fields that carry text). -/
structure SynthRequest where
  text : String
  emo_text : Option String
  voice_audio_url : Option String
  emo_audio_url : Option String
deriving DecidableEq, Repr

/-- `IndexTTS2Service.synthesize_from_character`
(`indextts2_service.py` lines 135-169): extract the emotion directive,
prefer it over the configured `emo_text` (Python `or`, so an empty
captured group is falsy and falls back to the config), and call the
synthesizer — with `text=text`, the original input including any marker
(the source comment says the API expects the raw text; the computed
`clean_text` is not used). -/
def synthesize_from_character (text : String) (tts_config : TTSConfig) :
    SynthRequest :=
  let extracted_emotion := (extract_emotion_and_clean_text text).1
  let final_emo_text :=
    match extracted_emotion with
    | some e => if e = "" then tts_config.emo_text else some e
    | none => tts_config.emo_text
  ⟨text, final_emo_text, tts_config.voice_audio_url, tts_config.emo_audio_url⟩

/-- Modelled from the spec: the repository source under `src/` contains
no sentence segmenter (the shipped handler forwards the whole reply and
synthesizes it in one piece); spec §4.6 describes the
SentenceStreamProcessor's fixed terminator set `. ! ? 。！？`. -/
def sentence_terminators : List Char := ['.', '!', '?', '。', '！', '？']

/-- Modelled from the spec: membership in the fixed terminator set. -/
def isSentenceTerminator (ch : Char) : Bool :=
  sentence_terminators.contains ch

/-- Modelled from the spec (§4.6 SentenceStreamProcessor): scan the
accumulated buffer left to right; on a terminator the text up to and
including it is extracted as a completed sentence and removed from the
buffer, with leading whitespace of the remainder stripped (tracked by the
`afterCut` flag so the scan stays a single structural pass); at end of
stream a non-empty remaining buffer is flushed as a final sentence. -/
def segmentLoop : Bool → List Char → List Char → List (List Char)
  | _, buf, [] => if buf.isEmpty then [] else [buf]
  | afterCut, buf, c :: rest =>
      if afterCut && buf.isEmpty && c.isWhitespace then
        segmentLoop true buf rest
      else if isSentenceTerminator c then
        (buf ++ [c]) :: segmentLoop true [] rest
      else
        segmentLoop afterCut (buf ++ [c]) rest

/-- Modelled from the spec: split an accumulated reply into its
sentences. -/
def segmentSentences (s : String) : List String :=
  (segmentLoop false [] s.data).map (fun cs => (⟨cs⟩ : String))

/-- The payload of a `text_stream` event, `none` for every other event
kind. -/
def textPayload : WsEvent → Option String
  | WsEvent.textStream s => some s
  | _ => none

/-- Concatenation, in emission order, of the payloads of the
`text_stream` events among a sent event list. -/
def concatTextPayloads (events : List WsEvent) : String :=
  String.join (events.filterMap textPayload)

/-- A concrete persisted message used to instantiate theorems. -/
def sampleMessage : Message := ⟨"user", "你好", 1, none⟩

/-- A second concrete persisted message, created later. -/
def sampleMessage2 : Message := ⟨"assistant", "你好呀", 2, some "http://a/1.mp3"⟩

/-- A concrete character with the knowledge base disabled. -/
def sampleCharacter : Character :=
  ⟨"你是测试角色", false, 3, "zh-CN-XiaoxiaoNeural", none, []⟩

/-- A concrete character with the knowledge base enabled and one linked
knowledge document. -/
def ragCharacter : Character := ⟨"模板", true, 3, "voice", some "indextts2", [1]⟩

/-- A `tts_config` with every optional field absent (the default for a
character whose `tts_config` column is `NULL`). -/
def emptyTTSConfig : TTSConfig := ⟨none, none, none, none, none, none⟩

theorem strEq {s t : String} (h : s.data = t.data) : s = t := by
  cases s; cases t; exact congrArg String.mk h

theorem join_cons (a : String) (l : List String) :
    String.join (a :: l) = a ++ String.join l := by
  apply strEq
  simp [String.join_eq]

theorem stream_reply_none (frags : List String) :
    ∀ i acc evs, stream_reply i acc evs frags none =
      (acc ++ String.join frags, evs ++ frags.map WsEvent.textStream, true) := by
  induction frags with
  | nil =>
      intro i acc evs
      simp [stream_reply, String.join]
  | cons f fs ih =>
      intro i acc evs
      simp [stream_reply, ih, join_cons, ← String.append_assoc]

theorem stream_reply_fail (frags : List String) :
    ∀ i j acc evs, j < frags.length →
      (stream_reply i acc evs frags (some (i + j))).2.2 = false := by
  induction frags with
  | nil =>
      intro i j acc evs h
      simp at h
  | cons f fs ih =>
      intro i j acc evs h
      cases j with
      | zero => simp [stream_reply]
      | succ j' =>
          have hne : ¬ (some (i + (j' + 1)) = some i) := by simp
          have hrec := ih (i + 1) j' (acc ++ f)
            (evs ++ [WsEvent.textStream f]) (by simp at h; omega)
          have harg : i + 1 + j' = i + (j' + 1) := by omega
          rw [harg] at hrec
          simpa [stream_reply, hne] using hrec

theorem tts_stage_no_text (b : Bool) (t : Except Unit String) (e : String) :
    ((tts_stage b t e).2).filterMap textPayload = [] := by
  cases b <;> cases t <;> simp [tts_stage, textPayload]

theorem filterMap_textStream (l : List String) :
    l.filterMap (textPayload ∘ WsEvent.textStream) = l := by
  induction l with
  | nil => rfl
  | cons a t ih =>
      simp only [List.filterMap_cons, Function.comp_apply]
      simp [textPayload, ih]

/-- C9: the sentence segmenter, whose terminator set contains `！` and
`？`, splits `"你好！今天天气怎么样？"` into exactly the two sentences
`"你好！"` and `"今天天气怎么样？"`, each ending with its terminator.
(The segmenter is modelled from spec §4.6; the shipped handler under
`src/` contains no segmenter.) -/
theorem segment_two_sentences :
    isSentenceTerminator '！' = true ∧ isSentenceTerminator '？' = true ∧
    segmentSentences "你好！今天天气怎么样？" = ["你好！", "今天天气怎么样？"] := by
  decide

/-- C7 counterexample: for the generated reply `"好的*开心*"` the
reference-voice path does extract the emotion directive `"开心"` and the
cleaned text `"好的"`, but the text actually handed to the synthesizer is
the original `"好的*开心*"`, marker included — it is not the cleaned
text, and the marker character `*` is still in it. -/
theorem synthesize_marker_not_stripped_counterexample :
    extract_emotion_and_clean_text "好的*开心*" = (some "开心", "好的") ∧
    (synthesize_from_character "好的*开心*" emptyTTSConfig).text = "好的*开心*" ∧
    (synthesize_from_character "好的*开心*" emptyTTSConfig).text ≠ "好的" ∧
    '*' ∈ (synthesize_from_character "好的*开心*" emptyTTSConfig).text.data := by
  decide

/-- C7 (amended): `synthesize_from_character` extracts a non-empty
emotion marker and passes it separately as the emotion directive, but the
text sent to the synthesizer is always the original input, marker
included (the computed cleaned text is unused); without a marker the
configured `emo_text` is used. -/
theorem synthesize_sends_original_text (text : String) (cfg : TTSConfig) :
    (synthesize_from_character text cfg).text = text ∧
    (∀ e, (extract_emotion_and_clean_text text).1 = some e → e ≠ "" →
      (synthesize_from_character text cfg).emo_text = some e) ∧
    ((extract_emotion_and_clean_text text).1 = none →
      (synthesize_from_character text cfg).emo_text = cfg.emo_text) := by
  refine ⟨rfl, ?_, ?_⟩
  · intro e he hne
    simp [synthesize_from_character, he, hne]
  · intro hnone
    simp [synthesize_from_character, hnone]

/-- C7 witness: the amended theorem evaluated on the concrete reply
`"好的*开心*"` with an empty TTS configuration. -/
theorem synthesize_sends_original_text_witness :
    (synthesize_from_character "好的*开心*" emptyTTSConfig).text = "好的*开心*" ∧
    (∀ e, (extract_emotion_and_clean_text "好的*开心*").1 = some e → e ≠ "" →
      (synthesize_from_character "好的*开心*" emptyTTSConfig).emo_text = some e) ∧
    ((extract_emotion_and_clean_text "好的*开心*").1 = none →
      (synthesize_from_character "好的*开心*" emptyTTSConfig).emo_text =
        emptyTTSConfig.emo_text) :=
  synthesize_sends_original_text "好的*开心*" emptyTTSConfig

/-- C5: for a non-empty raw input, if the external correction call throws
or returns only whitespace, `correct_text` returns the raw input
unmodified. -/
theorem correct_text_falls_back (raw : String) (ctx : Option String)
    (llm : Except Unit String) (hraw : raw ≠ "")
    (h : llm = .error () ∨ ∃ t, llm = .ok t ∧ pyStrip t = "") :
    correct_text raw ctx llm = raw := by
  rcases h with h | ⟨t, ht, hstrip⟩
  · simp [correct_text, h]
  · simp [correct_text, ht, hstrip]

/-- C5 witness: `correct_text "hello" ctx` returns `"hello"` when the
correction call throws. -/
theorem correct_text_falls_back_witness :
    ("hello" : String) ≠ "" ∧ correct_text "hello" none (.error ()) = "hello" :=
  ⟨by decide, correct_text_falls_back "hello" none (.error ()) (by decide)
    (Or.inl rfl)⟩

/-- C4: for a non-empty list of recent turns, if the summarizer's text is
longer than 1000 characters the returned summary is exactly its first 997
characters followed by `"..."`, otherwise the text is returned unchanged;
either way the result never exceeds 1000 characters. -/
theorem summary_truncated_to_1000 (messages : List Message) (s : String)
    (hne : messages ≠ []) :
    (1000 < s.length →
      generate_context_summary messages (.ok s) = pySlice s 997 ++ "...") ∧
    (s.length ≤ 1000 → generate_context_summary messages (.ok s) = s) ∧
    (generate_context_summary messages (.ok s)).length ≤ 1000 := by
  have hme : messages.isEmpty = false := by
    cases messages with
    | nil => exact absurd rfl hne
    | cons a l => rfl
  refine ⟨?_, ?_, ?_⟩
  · intro hlong
    simp [generate_context_summary, hme, hlong]
  · intro hshort
    have : ¬ (1000 < s.length) := by omega
    simp [generate_context_summary, hme, this]
  · by_cases hlong : 1000 < s.length
    · have h997 : (pySlice s 997).length = 997 := by
        simp only [pySlice, String.length]
        have : s.data.length = s.length := rfl
        rw [List.length_take]
        omega
      have : (pySlice s 997 ++ "...").length = (pySlice s 997).length + 3 := by
        have h3 : ("..." : String).length = 3 := by decide
        simp only [String.length_append, h3]
      simp only [generate_context_summary, hme, Bool.false_eq_true, if_false, hlong,
        if_true]
      omega
    · simp only [generate_context_summary, hme, Bool.false_eq_true, if_false, hlong,
        if_false]
      omega

/-- C4 witness: one recent turn and a short summarizer text. -/
theorem summary_truncated_to_1000_witness :
    (1000 < ("你好" : String).length →
      generate_context_summary [sampleMessage] (.ok "你好") = pySlice "你好" 997 ++ "...") ∧
    (("你好" : String).length ≤ 1000 →
      generate_context_summary [sampleMessage] (.ok "你好") = "你好") ∧
    (generate_context_summary [sampleMessage] (.ok "你好")).length ≤ 1000 :=
  summary_truncated_to_1000 [sampleMessage] "你好" (by decide)

/-- C8 counterexample: with one recent turn, when the summarization LLM
call fails the pipeline receives ContextAgent's fixed fallback
`"对话摘要生成失败，请检查日志。"` — a string containing no digit at
all, so it does not name the turn count. -/
theorem summarizer_fallback_without_count_counterexample :
    generate_context_summary [sampleMessage]
        (.ok (ContextAgent.generate_summary (.error ()))) =
      "对话摘要生成失败，请检查日志。" ∧
    (∀ ch ∈ ("对话摘要生成失败，请检查日志。" : String).data, ch.isDigit = false) := by
  decide

/-- C8 (amended): when the summarizer's internal LLM call fails,
`ContextAgent.generate_summary` itself catches the error and the pipeline
receives the fixed fallback `"对话摘要生成失败，请检查日志。"`, which
does not name the turn count; the fallback naming the turn count
(`"对话历史摘要: 最近N条消息的对话上下文"`) is produced only when the
awaited ContextAgent call itself raises.  In both cases a summary string
is returned instead of an error being raised for the turn. -/
theorem summarizer_failure_fallbacks (messages : List Message)
    (hne : messages ≠ []) :
    generate_context_summary messages
        (.ok (ContextAgent.generate_summary (.error ()))) =
      "对话摘要生成失败，请检查日志。" ∧
    generate_context_summary messages (.error ()) =
      "对话历史摘要: 最近" ++ toString messages.length ++ "条消息的对话上下文" := by
  have hme : messages.isEmpty = false := by
    cases messages with
    | nil => exact absurd rfl hne
    | cons a l => rfl
  constructor
  · have hagent : ContextAgent.generate_summary (.error ()) =
        "对话摘要生成失败，请检查日志。" := by decide
    rw [hagent]
    have hlen : ¬ (1000 < ("对话摘要生成失败，请检查日志。" : String).length) := by decide
    simp [generate_context_summary, hme, hlen]
  · simp [generate_context_summary, hme]

/-- C8 witness: the amended theorem evaluated with a single recent
turn. -/
theorem summarizer_failure_fallbacks_witness :
    generate_context_summary [sampleMessage]
        (.ok (ContextAgent.generate_summary (.error ()))) =
      "对话摘要生成失败，请检查日志。" ∧
    generate_context_summary [sampleMessage] (.error ()) =
      "对话历史摘要: 最近" ++ toString ([sampleMessage] : List Message).length ++
        "条消息的对话上下文" :=
  summarizer_failure_fallbacks [sampleMessage] (by decide)

/-- C1: for every completed assistant reply (the generation stream yields
fragments F1..Fn and the turn reaches the generation loop), the
concatenation of the payloads of the `text_stream` events sent to the
session equals the concatenation of F1..Fn in order, and equals the
content of the assistant row persisted for that reply. -/
theorem text_stream_concat_matches_persisted
    (c : Character) (cid : Nat) (u : String) (ua : Option String)
    (dbM : List Message) (agentCall : Except Unit String)
    (embed : Except Unit (List Int)) (storeRows : List RetrievedChunk)
    (frags : List String) (need_audio : Bool) (tts : Except Unit String)
    (eng : String) (chunks : List RetrievedChunk)
    (hret : retrieval_phase c embed storeRows = .ok chunks) :
    concatTextPayloads (process_user_input c cid u ua dbM agentCall embed
        storeRows frags none need_audio tts eng).events = String.join frags ∧
    ∃ urow arow,
      (process_user_input c cid u ua dbM agentCall embed storeRows frags
          none need_audio tts eng).committed = [urow, arow] ∧
      arow.role = "assistant" ∧ arow.content = String.join frags := by
  have hsr := stream_reply_none frags 0 "" []
  constructor
  · simp [process_user_input, hret, hsr, concatTextPayloads,
      List.filterMap_append, tts_stage_no_text, filterMap_textStream,
      String.empty_append]
  · refine ⟨⟨cid, "user", u, ua, none, none⟩,
      ⟨cid, "assistant", String.join frags,
        (tts_stage need_audio tts eng).1, some chunks,
        some (generate_context_summary (get_recent_messages dbM 10) agentCall)⟩,
      ?_, rfl, rfl⟩
    simp [process_user_input, hret, hsr, String.empty_append]

/-- C1 witness: a two-fragment reply on a character without a knowledge
base. -/
theorem text_stream_concat_matches_persisted_witness :
    retrieval_phase sampleCharacter (.ok []) [] = .ok [] ∧
    (concatTextPayloads (process_user_input sampleCharacter 1 "你好" none []
        (.ok "") (.ok []) [] ["你好，", "我在。"] none true
        (.ok "http://a/2.mp3") "edge_tts").events =
      String.join ["你好，", "我在。"] ∧
    ∃ urow arow,
      (process_user_input sampleCharacter 1 "你好" none [] (.ok "") (.ok [])
          [] ["你好，", "我在。"] none true (.ok "http://a/2.mp3")
          "edge_tts").committed = [urow, arow] ∧
      arow.role = "assistant" ∧
      arow.content = String.join ["你好，", "我在。"]) :=
  ⟨rfl,
   text_stream_concat_matches_persisted sampleCharacter 1 "你好" none []
     (.ok "") (.ok []) [] ["你好，", "我在。"] true (.ok "http://a/2.mp3")
     "edge_tts" [] rfl⟩

/-- C2: if the transport send raises while the reply is still streaming
(fragment index `failIdx` strictly inside the stream), the turn aborts
and the only row committed by the turn is the user row written before the
disconnect: no assistant row for the in-flight reply is ever
persisted. -/
theorem disconnect_no_assistant_persisted
    (c : Character) (cid : Nat) (u : String) (ua : Option String)
    (dbM : List Message) (agentCall : Except Unit String)
    (embed : Except Unit (List Int)) (storeRows : List RetrievedChunk)
    (frags : List String) (failIdx : Nat) (need_audio : Bool)
    (tts : Except Unit String) (eng : String)
    (chunks : List RetrievedChunk)
    (hret : retrieval_phase c embed storeRows = .ok chunks)
    (hfail : failIdx < frags.length) :
    (process_user_input c cid u ua dbM agentCall embed storeRows frags
        (some failIdx) need_audio tts eng).aborted = true ∧
    (process_user_input c cid u ua dbM agentCall embed storeRows frags
        (some failIdx) need_audio tts eng).committed =
      [⟨cid, "user", u, ua, none, none⟩] ∧
    ∀ row ∈ (process_user_input c cid u ua dbM agentCall embed storeRows
        frags (some failIdx) need_audio tts eng).committed,
      row.role ≠ "assistant" := by
  rcases hsr : stream_reply 0 "" [] frags (some failIdx) with ⟨ai, evs, ok⟩
  have hok : ok = false := by
    have h := stream_reply_fail frags 0 failIdx "" [] hfail
    rw [Nat.zero_add] at h
    rw [hsr] at h
    exact h
  subst hok
  refine ⟨?_, ?_, ?_⟩
  · simp [process_user_input, hret, hsr]
  · simp [process_user_input, hret, hsr]
  · intro row hrow
    simp [process_user_input, hret, hsr] at hrow
    subst hrow
    simp

/-- C2 witness: a one-fragment reply whose send raises at fragment 0. -/
theorem disconnect_no_assistant_persisted_witness :
    retrieval_phase sampleCharacter (.ok []) [] = .ok [] ∧ 0 < (["你好"] : List String).length ∧
    ((process_user_input sampleCharacter 1 "早" none [] (.ok "") (.ok []) []
        ["你好"] (some 0) true (.ok "http://a/4.mp3") "edge_tts").aborted = true ∧
    (process_user_input sampleCharacter 1 "早" none [] (.ok "") (.ok []) []
        ["你好"] (some 0) true (.ok "http://a/4.mp3") "edge_tts").committed =
      [⟨1, "user", "早", none, none, none⟩] ∧
    ∀ row ∈ (process_user_input sampleCharacter 1 "早" none [] (.ok "")
        (.ok []) [] ["你好"] (some 0) true (.ok "http://a/4.mp3")
        "edge_tts").committed, row.role ≠ "assistant") :=
  ⟨rfl, by decide,
   disconnect_no_assistant_persisted sampleCharacter 1 "早" none [] (.ok "")
     (.ok []) [] ["你好"] 0 true (.ok "http://a/4.mp3") "edge_tts" []
     rfl (by decide)⟩

/-- C3 counterexample: for a character with retrieval enabled and one
linked document, a failing query-embedding call does not degrade to an
empty chunk list — `search_knowledge` re-raises, the handler has no
try/except around it, and the turn aborts before any row is committed or
any event is sent (no reply generation occurs). -/
theorem retrieval_failure_aborts_counterexample :
    retrieval_phase ragCharacter (.error ()) [] = .error () ∧
    process_user_input ragCharacter 1 "你好" none [] (.ok "") (.error ()) []
        ["好的。"] none true (.ok "http://a/3.mp3") "indextts2" =
      (⟨[], [], "", true⟩ : TurnResult) :=
  ⟨rfl, rfl⟩

/-- C3 (amended): a failure of the underlying vector search (query
embedding included) propagates out of the turn instead of degrading to an
empty list: for every character with the knowledge base enabled and
linked documents, an embedding error aborts the turn before any row is
committed and before any event is sent.  (Retrieval degrades to `[]` only
when the character has retrieval disabled or no linked knowledge.) -/
theorem retrieval_failure_propagates
    (c : Character) (cid : Nat) (u : String) (ua : Option String)
    (dbM : List Message) (agentCall : Except Unit String)
    (storeRows : List RetrievedChunk) (frags : List String)
    (failAt : Option Nat) (need_audio : Bool) (tts : Except Unit String)
    (eng : String)
    (hkb : c.use_knowledge_base = true) (hdocs : c.doc_ids ≠ []) :
    retrieval_phase c (.error ()) storeRows = .error () ∧
    (process_user_input c cid u ua dbM agentCall (.error ()) storeRows frags
        failAt need_audio tts eng).aborted = true ∧
    (process_user_input c cid u ua dbM agentCall (.error ()) storeRows frags
        failAt need_audio tts eng).committed = [] ∧
    (process_user_input c cid u ua dbM agentCall (.error ()) storeRows frags
        failAt need_audio tts eng).events = [] := by
  have hde : c.doc_ids.isEmpty = false := by
    cases hd : c.doc_ids with
    | nil => exact absurd hd hdocs
    | cons a l => rfl
  have hret : retrieval_phase c (.error ()) storeRows = .error () := by
    simp [retrieval_phase, search_knowledge, hkb, hde]
  refine ⟨hret, ?_, ?_, ?_⟩ <;> simp [process_user_input, hret]

/-- C3 witness for the amended theorem: the enabled character with one
linked document. -/
theorem retrieval_failure_propagates_witness :
    ragCharacter.use_knowledge_base = true ∧ ragCharacter.doc_ids ≠ [] ∧
    (retrieval_phase ragCharacter (.error ()) [] = .error () ∧
    (process_user_input ragCharacter 2 "早上好" none [] (.ok "") (.error ())
        [] ["早。"] none false (.error ()) "edge_tts").aborted = true ∧
    (process_user_input ragCharacter 2 "早上好" none [] (.ok "") (.error ())
        [] ["早。"] none false (.error ()) "edge_tts").committed = [] ∧
    (process_user_input ragCharacter 2 "早上好" none [] (.ok "") (.error ())
        [] ["早。"] none false (.error ()) "edge_tts").events = []) :=
  ⟨rfl, by decide,
   retrieval_failure_propagates ragCharacter 2 "早上好" none [] (.ok "") []
     ["早。"] none false (.error ()) "edge_tts" rfl (by decide)⟩

/-- C6: when the character has the knowledge base disabled, the system
prompt assembled for the generator carries no retrieval block, so —
provided the fixed retrieval preamble does not already occur in the
template-plus-summary assembly itself — the prompt never contains the
retrieval preamble produced by `build_context_prompt`, whatever the
vector store would have returned. -/
theorem kb_disabled_no_preamble
    (c : Character) (cid : Nat) (u : String) (ua : Option String)
    (dbM : List Message) (agentCall : Except Unit String)
    (embed : Except Unit (List Int)) (storeRows : List RetrievedChunk)
    (frags : List String) (failAt : Option Nat) (need_audio : Bool)
    (tts : Except Unit String) (eng : String)
    (hkb : c.use_knowledge_base = false)
    (hfree : ¬ rag_preamble.data <:+:
      (enhanced_prompt c.prompt_template ""
        (generate_context_summary (get_recent_messages dbM 10) agentCall)).data) :
    ¬ rag_preamble.data <:+:
      ((process_user_input c cid u ua dbM agentCall embed storeRows frags
          failAt need_audio tts eng).prompt).data := by
  have hret : retrieval_phase c embed storeRows = .ok [] := by
    simp [retrieval_phase, hkb]
  rcases hsr : stream_reply 0 "" [] frags failAt with ⟨ai, evs, ok⟩
  cases ok
  · simpa [process_user_input, hret, hsr] using hfree
  · simpa [process_user_input, hret, hsr] using hfree

/-- C6 witness: the knowledge-base-disabled character with an empty
conversation, even though the store would return a chunk whose content is
the preamble itself. -/
theorem kb_disabled_no_preamble_witness :
    sampleCharacter.use_knowledge_base = false ∧
    (¬ rag_preamble.data <:+:
      (enhanced_prompt sampleCharacter.prompt_template ""
        (generate_context_summary (get_recent_messages [] 10) (.ok ""))).data) ∧
    ¬ rag_preamble.data <:+:
      ((process_user_input sampleCharacter 1 "你好" none [] (.ok "") (.ok [])
          [⟨rag_preamble, "t", none, 0⟩] ["好。"] none false (.error ())
          "edge_tts").prompt).data :=
  ⟨rfl, by decide,
   kb_disabled_no_preamble sampleCharacter 1 "你好" none [] (.ok "") (.ok [])
     [⟨rag_preamble, "t", none, 0⟩] ["好。"] none false (.error ())
     "edge_tts" rfl (by decide)⟩

/-- C10: on connection accept, for a conversation whose persisted rows
are in ascending creation order, the server sends at most one `history`
event before entering the receive loop; none when the conversation has no
rows, and otherwise exactly one whose payload is built from the
`min 10 n` most recent rows (a suffix of the conversation) in ascending
creation-time order. -/
theorem startup_history_at_most_one
    (conversation : List Message)
    (hsorted : conversation.Pairwise (fun a b => a.created_at ≤ b.created_at)) :
    (startupHistoryEvents conversation).length ≤ 1 ∧
    (conversation = [] → startupHistoryEvents conversation = []) ∧
    (conversation ≠ [] →
      ∃ recent, startupHistoryEvents conversation =
          [WsEvent.history (recent.map historyItemOf)] ∧
        recent.length = min 10 conversation.length ∧
        recent <:+ conversation ∧
        recent.Pairwise (fun a b => a.created_at ≤ b.created_at)) := by
  have hlen : (get_recent_messages conversation 10).length =
      min 10 conversation.length := by
    simp [get_recent_messages]
  have hsuf : get_recent_messages conversation 10 <:+ conversation := by
    have h1 : conversation.reverse.take 10 <+: conversation.reverse :=
      List.take_prefix 10 conversation.reverse
    have h2 := List.reverse_suffix.mpr h1
    simpa [get_recent_messages] using h2
  have hpair : (get_recent_messages conversation 10).Pairwise
      (fun a b => a.created_at ≤ b.created_at) :=
    hsorted.sublist hsuf.sublist
  refine ⟨?_, ?_, ?_⟩
  · simp only [startupHistoryEvents]
    split <;> simp
  · intro h
    subst h
    rfl
  · intro hne
    have hcl : conversation.length ≠ 0 := by
      cases conversation with
      | nil => exact absurd rfl hne
      | cons a l => simp
    have hre : (get_recent_messages conversation 10).isEmpty = false := by
      have hn : (get_recent_messages conversation 10).length ≠ 0 := by
        rw [hlen]
        omega
      cases hr : get_recent_messages conversation 10 with
      | nil => rw [hr] at hn; exact absurd rfl hn
      | cons a l => rfl
    refine ⟨get_recent_messages conversation 10, ?_, hlen, hsuf, hpair⟩
    simp [startupHistoryEvents, hre]

/-- C10 witness: a two-row conversation in ascending creation order. -/
theorem startup_history_at_most_one_witness :
    ([sampleMessage, sampleMessage2] : List Message).Pairwise
      (fun a b => a.created_at ≤ b.created_at) ∧
    ((startupHistoryEvents [sampleMessage, sampleMessage2]).length ≤ 1 ∧
    (([sampleMessage, sampleMessage2] : List Message) = [] →
      startupHistoryEvents [sampleMessage, sampleMessage2] = []) ∧
    (([sampleMessage, sampleMessage2] : List Message) ≠ [] →
      ∃ recent, startupHistoryEvents [sampleMessage, sampleMessage2] =
          [WsEvent.history (recent.map historyItemOf)] ∧
        recent.length = min 10 ([sampleMessage, sampleMessage2] : List Message).length ∧
        recent <:+ [sampleMessage, sampleMessage2] ∧
        recent.Pairwise (fun a b => a.created_at ≤ b.created_at))) :=
  ⟨by decide, startup_history_at_most_one [sampleMessage, sampleMessage2]
    (by decide)⟩
